import Mathlib

/-!
# Verification of the Sensing repository

A shallow embedding, in Lean 4, of the parts of the `Sensing` repository
(GNSS/IMU acquisition and websocket telemetry fan-out) that its
specification makes claims about, together with proofs settling those
claims.

Modelling conventions:
* Python `float` values are modelled as exact rationals (`ℚ`); every
  float literal appearing in the source is an exact decimal, except
  `math.pi`, which is embedded as the exact value of the IEEE-754 double
  `3.141592653589793`.
* Python strings are modelled as `List Char` (`Str`); `ord` is `Char.toNat`.
* Python exceptions are modelled with `Except PyErr`: an operation that can
  raise returns `Except`, a `try/except` block is an explicit `match` on the
  corresponding error constructors, exactly where the source catches them.
* Decoded JSON values (the output of `json.loads`) are modelled by the
  inductive `Json`; a JSON number (int or float) is a rational.
-/

set_option autoImplicit false

/-- The Python exception kinds that can occur in the modelled code paths. -/
inductive PyErr where
  | valueError
  | indexError
  | attributeError
  | typeError
  | eofError
  | timeoutError
  | structError
  | queueEmpty
  | queueFull
  deriving DecidableEq, Repr

/-- A decoded JSON value, as returned by `json.loads`.  Python ints and
floats are both JSON numbers and are modelled as rationals. -/
inductive Json where
  | null
  | bool (b : Bool)
  | num (q : ℚ)
  | str (s : String)
  | arr (elems : List Json)
  | obj (fields : List (String × Json))

/-- Python `dict.get(key)` on a decoded JSON object (association list of
its fields; keys are unique in a Python dict): the value stored under
`key`, or `None` when absent. -/
def dictGet (kvs : List (String × Json)) (key : String) : Option Json :=
  match kvs with
  | [] => none
  | (k, v) :: rest => if k = key then some v else dictGet rest key

/-- Python `x == name` where `x` is a decoded JSON value or `None` and
`name` a string: true exactly for the equal string (values of other
types never compare equal to a string in Python). -/
def clsIs (cls : Option Json) (name : String) : Bool :=
  match cls with
  | some (.str s) => s = name
  | _ => false

/-! ## Subscriber queues (src/server/broadcaster.py, src/server/main.py)

`asyncio.Queue` semantics used by the code:
* `full()` is true iff `maxsize > 0` and at least `maxsize` items are stored
  (a queue constructed with `maxsize=0` is unbounded and never full);
* `get_nowait()` removes and returns the oldest item, raising `QueueEmpty`
  on an empty queue;
* `put_nowait(item)` appends `item`, raising `QueueFull` when full.
Neither `_nowait` operation ever blocks. -/

/-- An `asyncio.Queue[str]`: bound plus current items, oldest first. -/
structure PyQueue where
  maxsize : ℕ
  items : List String
  deriving DecidableEq, Repr

/-- Embeds `asyncio.Queue.full()`. -/
def PyQueue.full (q : PyQueue) : Bool :=
  decide (0 < q.maxsize ∧ q.maxsize ≤ q.items.length)

/-- Embeds `asyncio.Queue.get_nowait()`: oldest item and remaining queue. -/
def PyQueue.get_nowait (q : PyQueue) : Except PyErr (String × PyQueue) :=
  match q.items with
  | [] => .error .queueEmpty
  | x :: rest => .ok (x, ⟨q.maxsize, rest⟩)

/-- Embeds `asyncio.Queue.put_nowait(item)`. -/
def PyQueue.put_nowait (q : PyQueue) (item : String) : Except PyErr PyQueue :=
  if q.full then .error .queueFull
  else .ok ⟨q.maxsize, q.items ++ [item]⟩

/-- Embeds `server.broadcaster._enqueue_message`: drop the oldest item when the
queue is full, then push the new message. -/
def _enqueue_message (queue : PyQueue) (message : String) : Except PyErr PyQueue := do
  let queue ← if queue.full then do
      let r ← queue.get_nowait
      pure r.2
    else pure queue
  queue.put_nowait message

/-- Embeds `server.main._enqueue`: same body as `_enqueue_message`. -/
def _enqueue (queue : PyQueue) (message : String) : Except PyErr PyQueue := do
  let queue ← if queue.full then do
      let r ← queue.get_nowait
      pure r.2
    else pure queue
  queue.put_nowait message

/-! ## IMU data model (src/sensing/imu/types.py) -/

/-- The `IMUData` dataclass of `src/sensing/imu/types.py`.  Its declared
fields are exactly these seven; in particular it has a `timestamp` field
(CLOCK_REALTIME seconds) and no `timestamp_ns` field. -/
structure IMUData where
  timestamp : ℚ
  accel_x : ℚ
  accel_y : ℚ
  accel_z : ℚ
  gyro_x : ℚ
  gyro_y : ℚ
  gyro_z : ℚ
  deriving DecidableEq, Repr

/-- Python attribute access `data.<name>` on an `IMUData` instance: the
dataclass declares exactly the seven fields above, so any other attribute
name raises `AttributeError`. -/
def IMUData.getattr (d : IMUData) (name : String) : Except PyErr ℚ :=
  if name = "timestamp" then .ok d.timestamp
  else if name = "accel_x" then .ok d.accel_x
  else if name = "accel_y" then .ok d.accel_y
  else if name = "accel_z" then .ok d.accel_z
  else if name = "gyro_x" then .ok d.gyro_x
  else if name = "gyro_y" then .ok d.gyro_y
  else if name = "gyro_z" then .ok d.gyro_z
  else .error .attributeError

/-! ## IMU reader (src/sensing/imu/reader.py) -/

/-- Embeds `_ACCEL_SENSITIVITY = 0.061e-3 * 9.80665` (m/s² per LSB). -/
def _ACCEL_SENSITIVITY : ℚ := (0.061e-3 : ℚ) * 9.80665

/-- The IEEE-754 double value of Python `math.pi`. -/
def mathPi : ℚ := 884279719003555 / 281474976710656

/-- Embeds `_GYRO_SENSITIVITY = 70.0e-3 * (math.pi / 180.0)` (rad/s per LSB). -/
def _GYRO_SENSITIVITY : ℚ := (70.0e-3 : ℚ) * (mathPi / 180)

/-- Interpret two bytes as a little-endian signed 16-bit integer, as
`struct.unpack("<h", ...)` does. -/
def toInt16 (lo hi : ℕ) : ℤ :=
  let u := lo % 256 + 256 * (hi % 256)
  if u < 32768 then (u : ℤ) else (u : ℤ) - 65536

/-- Embeds `_parse_sample(raw, timestamp)`: `struct.unpack("<hhhhhh", raw)` on the
12 payload bytes (gyro X, Y, Z then accel X, Y, Z), scaled by the fixed
sensitivities.  `struct.unpack` raises unless `raw` is exactly 12 bytes. -/
def _parse_sample (raw : List ℕ) (timestamp : ℚ) : Except PyErr IMUData :=
  match raw with
  | [g0, g1, g2, g3, g4, g5, a0, a1, a2, a3, a4, a5] =>
    .ok
      { timestamp := timestamp
        accel_x := toInt16 a0 a1 * _ACCEL_SENSITIVITY
        accel_y := toInt16 a2 a3 * _ACCEL_SENSITIVITY
        accel_z := toInt16 a4 a5 * _ACCEL_SENSITIVITY
        gyro_x := toInt16 g0 g1 * _GYRO_SENSITIVITY
        gyro_y := toInt16 g2 g3 * _GYRO_SENSITIVITY
        gyro_z := toInt16 g4 g5 * _GYRO_SENSITIVITY }
  | _ => .error .structError

/-- Embeds `_read_sample(spi, timestamp)`: the SPI transfer returns 13 bytes
(one per transmitted byte); bytes 1..12 are the payload handed to
`_parse_sample`. -/
def _read_sample (spi_resp : List ℕ) (timestamp : ℚ) : Except PyErr IMUData :=
  _parse_sample ((spi_resp.take 13).drop 1) timestamp

/-- A GPIO edge event as exposed by the kernel: it carries the
kernel-captured timestamp of the edge, in nanoseconds. -/
structure EdgeEvent where
  timestamp_ns : ℤ
  deriving DecidableEq, Repr

/-- The environment of one `IMUReader.read(timeout)` call:
* `pending`: the edge events queued on the GPIO line request by the time
  the wait completes (`wait_edge_events` returns `True` iff at least one
  event arrives within the timeout; `read_edge_events()` then consumes
  every queued event);
* `clock_realtime`: the value `time.clock_gettime(time.CLOCK_REALTIME)`
  returns at the instant `read` calls it, in seconds — an instant after
  the edge wait and the event consumption;
* `spi_resp`: the 13 bytes answered by the SPI burst transfer. -/
structure IMUReadEnv where
  pending : List EdgeEvent
  clock_realtime : ℚ
  spi_resp : List ℕ

/-- Embeds `IMUReader.read(timeout)`: raise `TimeoutError` when no edge arrives;
otherwise consume the queued edge events, sample `CLOCK_REALTIME`, and
build the sample with that wall-clock value as its timestamp. -/
def IMUReader.read (env : IMUReadEnv) : Except PyErr IMUData :=
  if env.pending.isEmpty then .error .timeoutError
  else _read_sample env.spi_resp env.clock_realtime

/-- Number of edge events consumed by one `IMUReader.read` call:
`read_edge_events()` drains every queued event (zero when the wait
timed out). -/
def IMUReader.readConsumed (env : IMUReadEnv) : ℕ :=
  if env.pending.isEmpty then 0 else env.pending.length

/-! ## IMU message formatter (src/server/formatters.py) -/

/-- Embeds `format_imu_message(data)`: builds the JSON object field by field.
Each attribute read on the `IMUData` instance is a Python attribute
access and is modelled with `IMUData.getattr` under the attribute name
written in the source. -/
def format_imu_message (data : IMUData) : Except PyErr Json := do
  let ts ← data.getattr ("timestamp_ns")
  let ax ← data.getattr ("accel_x")
  let ay ← data.getattr ("accel_y")
  let az ← data.getattr ("accel_z")
  let gz ← data.getattr ("gyro_z")
  pure (.obj
    [("type", .str ("imu")), ("timestamp_ns", .num ts),
     ("accel_x", .num ax), ("accel_y", .num ay), ("accel_z", .num az),
     ("gyro_z", .num gz)])

/-! ## IMU producer loops (src/server/sensors.py, src/server/main.py)

Both loops call `imu.read()` through a helper that converts a
`TimeoutError` into `None` (`_read_imu_safely` / `_try_read_imu`), keep a
decimation counter, and hand every fifth sample to the format-and-broadcast
path.  The step functions below return the new counter together with the
sample passed into that path (`none` when no broadcast is attempted);
the formatting itself is modelled separately by `format_imu_message`. -/

/-- Outcome of one guarded IMU read: a sample, or an absorbed timeout. -/
inductive ReadResult where
  | sample (d : IMUData)
  | timeout
  deriving Repr

/-- One iteration of `server.sensors._process_imu_reading`: on timeout the
counter is returned unchanged; on success the sample is broadcast when
`counter % 5 == 0` *before* the increment, and `counter + 1` is returned. -/
def _process_imu_reading (r : ReadResult) (counter : ℤ) : ℤ × Option IMUData :=
  match r with
  | .timeout => (counter, none)
  | .sample d => (counter + 1, if counter % 5 == 0 then some d else none)

/-- One iteration of the loop body of `server.main._run_imu_thread`: on
timeout (`data is None`) it `continue`s with the counter unchanged; on
success it increments the counter first and broadcasts when
`counter % 5 == 0` holds for the *incremented* counter. -/
def _run_imu_thread_step (r : ReadResult) (counter : ℤ) : ℤ × Option IMUData :=
  match r with
  | .timeout => (counter, none)
  | .sample d =>
    let counter := counter + 1
    (counter, if counter % 5 == 0 then some d else none)

/-- Run an IMU producer loop over a finite trace of read outcomes from a
starting counter.  Returns the final counter and, for each *successful*
read in order, whether that sample was handed to the broadcast path. -/
def runLoop (step : ReadResult → ℤ → ℤ × Option IMUData) :
    List ReadResult → ℤ → ℤ × List Bool
  | [], c => (c, [])
  | r :: rs, c =>
    let s := step r c
    let rest := runLoop step rs s.1
    match r with
    | .timeout => rest
    | .sample _ => (rest.1, s.2.isSome :: rest.2)

/-- Number of successful reads in a trace. -/
def successCount : List ReadResult → ℕ
  | [] => 0
  | .timeout :: rs => successCount rs
  | .sample _ :: rs => successCount rs + 1

/-! ## gpsd JSON reader (src/sensing/gnss/reader.py)

`json.loads` maps JSON `null` to Python `None`, which the reader's
`dict.get` calls cannot distinguish from an absent key; `pyGet` therefore
collapses a stored `Json.null` to `none`. -/

/-- Embeds `msg.get(key)` as used by the gpsd reader (`null` collapses to `none`). -/
def pyGet (kvs : List (String × Json)) (key : String) : Option Json :=
  match dictGet kvs key with
  | some .null => none
  | v => v

/-- Python truthiness of a decoded JSON value. -/
def jsonTruthy : Json → Bool
  | .null => false
  | .bool b => b
  | .num q => decide (q ≠ 0)
  | .str s => decide (s ≠ "")
  | .arr l => !l.isEmpty
  | .obj l => !l.isEmpty

/-! ### Python string primitives

Python strings are modelled as `List Char` (`Str`).  Slicing follows
Python semantics: negative indices count from the end and out-of-range
bounds clamp. -/

/-- A Python string. -/
abbrev Str := List Char

/-- Normalize a Python slice index for a string of length `n`. -/
def pyIdxNorm (n : ℕ) (i : ℤ) : ℕ :=
  (if i < 0 then i + n else i).toNat.min n

/-- Python `s[a:b]`. -/
def pySlice (s : Str) (a b : ℤ) : Str :=
  (s.take (pyIdxNorm s.length b)).drop (pyIdxNorm s.length a)

/-- Python `s[a:]`. -/
def pySliceFrom (s : Str) (a : ℤ) : Str :=
  s.drop (pyIdxNorm s.length a)

/-- Python `s.strip()`: remove leading and trailing whitespace. -/
def pyStrip (s : Str) : Str :=
  ((s.dropWhile Char.isWhitespace).reverse.dropWhile Char.isWhitespace).reverse

/-- Python `s.rstrip("Z")`: remove trailing `Z` characters. -/
def pyRstripZ (s : Str) : Str :=
  (s.reverse.dropWhile (· = 'Z')).reverse

/-- Python `s.ljust(width, c)`: pad on the right up to `width`. -/
def pyLjust (s : Str) (width : ℕ) (c : Char) : Str :=
  s ++ List.replicate (width - s.length) c

/-- Python `s.split(sep, 1)[0]` and `[1]` for a single-character
separator contained in `s`: the text before the first occurrence and
everything after it. -/
def splitOnceAt (sep : Char) : Str → Str × Str
  | [] => ([], [])
  | c :: rest =>
    if c = sep then ([], rest)
    else
      let r := splitOnceAt sep rest
      (c :: r.1, r.2)

/-- Python `s.split(sep)` for a single-character separator: the list of
fields, always non-empty. -/
def pySplit (sep : Char) : Str → List Str
  | [] => [[]]
  | c :: rest =>
    let r := pySplit sep rest
    if c = sep then [] :: r
    else
      match r with
      | [] => [[c]]
      | f :: fs => (c :: f) :: fs

/-- Python `s.startswith(p)` for a one-character prefix `p`. -/
def pyStartsWithChar (s : Str) (p : Char) : Bool :=
  match s with
  | [] => false
  | c :: _ => c = p

/-- Index of the first occurrence of `c` in `s`, if any. -/
def idxOfChar? (c : Char) : Str → Option ℕ
  | [] => none
  | a :: rest => if a = c then some 0 else (idxOfChar? c rest).map (· + 1)

/-- Python `s.index(c)` for a single-character needle: the first index,
raising `ValueError` when `c` does not occur. -/
def pyIndexChar (s : Str) (c : Char) : Except PyErr ℕ :=
  match idxOfChar? c s with
  | some i => .ok i
  | none => .error .valueError

/-- Python `fields[i]` on a list, raising `IndexError` when out of range
(only non-negative literal indices occur in the modelled code). -/
def pyListGet {α : Type} (l : List α) (i : ℕ) : Except PyErr α :=
  match l.get? i with
  | some x => .ok x
  | none => .error .indexError

namespace Gpsd

/-- Embeds `_MPS_TO_KNOTS = 1.94384`. -/
def _MPS_TO_KNOTS : ℚ := 1.94384

/-- Embeds `_MPS_TO_KPH = 3.6`. -/
def _MPS_TO_KPH : ℚ := 3.6

/-- Embeds `_STATUS_TO_FIX_QUALITY`: gpsd TPV.status → NMEA GGA fix_quality. -/
def _STATUS_TO_FIX_QUALITY : List (ℚ × ℤ) :=
  [(0, 0), (1, 1), (2, 2), (3, 4), (4, 5), (5, 6)]

/-- Embeds `_STATUS_TO_VTG_MODE`: gpsd TPV.status → NMEA VTG FAA mode. -/
def _STATUS_TO_VTG_MODE : List (ℚ × String) :=
  [(0, "N"), (1, "A"), (2, "D"), (3, "D"), (4, "D"), (5, "E")]

/-- Embeds `table.get(status, default)` on an int-keyed Python dict, where
`status` is a raw decoded JSON value: numbers hit the matching key
(Python `3` and `3.0` hash alike, so one rational key covers both);
values of any other type miss and yield the default.  (The Python corner
where a boolean equals `0`/`1` is not modelled; no claim involves it.) -/
def statusLookup {α : Type} (table : List (ℚ × α)) (status : Json) (dflt : α) : α :=
  match status with
  | .num q =>
    match table.find? (fun kv => decide (kv.1 = q)) with
    | some kv => kv.2
    | none => dflt
  | _ => dflt

/-- The mutable SKY state of `GNSSReader`: `_last_num_satellites` and
`_last_hdop` hold the raw values taken from the last SKY message. -/
structure ReaderState where
  last_num_satellites : Option Json
  last_hdop : Option Json

/-- Embeds `GNSSReader._process_sky`: store `uSat` if present else `nSat` (both
may be absent, storing `None`), and store `hdop` (absent stores `None`).
The `satellites[]` array is never consulted. -/
def _process_sky (kvs : List (String × Json)) (_st : ReaderState) : ReaderState :=
  let u_sat := pyGet kvs ("uSat")
  { last_num_satellites := match u_sat with
      | some v => some v
      | none => pyGet kvs ("nSat")
    last_hdop := pyGet kvs ("hdop") }

/-- The `GGAData` dataclass as instantiated by the gpsd reader: the
positional fields hold raw decoded JSON values passed through verbatim. -/
structure GGAData where
  utc_time : Option (List Char)
  latitude_degrees : Option Json
  longitude_degrees : Option Json
  fix_quality : ℤ
  num_satellites : Option Json
  horizontal_dilution_of_precision : Option Json
  altitude_meters : Option Json
  geoid_height_meters : Option Json
  valid : Bool

/-- The `VTGData` dataclass as instantiated by the gpsd reader. -/
structure VTGData where
  track_true_degrees : Option Json
  speed_knots : Option ℚ
  speed_kilometers_per_hour : Option ℚ
  speed_meters_per_second : Option ℚ
  mode : String
  valid : Bool

/-- The `GNSSData` dataclass: a GGA paired with an optional VTG. -/
structure GNSSData where
  gga : GGAData
  vtg : Option VTGData

/-- Embeds `GNSSReader._build_gga`: assemble a `GGAData` from TPV fields and the
stored SKY state (`altMSL` preferred over `alt`; `valid = fix_quality > 0`). -/
def _build_gga (kvs : List (String × Json)) (st : ReaderState)
    (fix_quality : ℤ) (utc_time : Option (List Char)) : GGAData :=
  let alt := match pyGet kvs ("altMSL") with
    | some v => some v
    | none => pyGet kvs ("alt")
  { utc_time := utc_time
    latitude_degrees := pyGet kvs ("lat")
    longitude_degrees := pyGet kvs ("lon")
    fix_quality := fix_quality
    num_satellites := st.last_num_satellites
    horizontal_dilution_of_precision := st.last_hdop
    altitude_meters := alt
    geoid_height_meters := none
    valid := decide (fix_quality > 0) }

/-- Embeds `GNSSReader._build_vtg`: derive the VTG mode from the status table and
the three speeds from `speed` (already m/s).  Multiplying a present
non-numeric `speed` by a float constant raises `TypeError` in Python. -/
def _build_vtg (kvs : List (String × Json)) (status : Json) :
    Except PyErr VTGData :=
  let track := pyGet kvs ("track")
  let vtg_mode := statusLookup _STATUS_TO_VTG_MODE status ("N")
  match pyGet kvs ("speed") with
  | none =>
    .ok ⟨track, none, none, none, vtg_mode, decide (vtg_mode ≠ "N")⟩
  | some (.num q) =>
    .ok ⟨track, some (q * _MPS_TO_KNOTS), some (q * _MPS_TO_KPH), some q,
      vtg_mode, decide (vtg_mode ≠ "N")⟩
  | some _ => .error .typeError

/-- Embeds `_iso_to_utc_time(iso)`: convert an ISO-8601 UTC timestamp to
`HHMMSS.ss`.  `t = iso[11:]`; hours are `t[0:2]`, minutes `t[3:5]`,
seconds `t[6:].rstrip("Z")`; a fractional part keeps its first two
digits right-padded with `0`, otherwise `.00` is appended. -/
def _iso_to_utc_time (iso : Str) : Str :=
  let t := pySliceFrom iso 11
  let hh := pySlice t 0 2
  let mm := pySlice t 3 5
  let ss_rest := pyRstripZ (pySliceFrom t 6)
  if ss_rest.contains '.' then
    let p := splitOnceAt '.' ss_rest
    hh ++ mm ++ p.1 ++ ('.' :: pyLjust (pySlice p.2 0 2) 2 '0')
  else
    hh ++ mm ++ ss_rest ++ ('.' :: '0' :: ['0'])

/-- The `utc_time` computation of `_process_tpv`:
`utc_time = _iso_to_utc_time(iso_time) if iso_time else None` where
`iso_time = msg.get("time")` — the conversion runs only for a truthy
value, and slicing a truthy non-string raises `TypeError`. -/
def _tpv_utc_time (kvs : List (String × Json)) : Except PyErr (Option Str) :=
  match pyGet kvs ("time") with
  | some (.str s) => pure (if s.isEmpty then none else some (_iso_to_utc_time s.toList))
  | some v => if jsonTruthy v then .error .typeError else pure (none : Option Str)
  | none => pure none

/-- Embeds `GNSSReader._process_tpv`: read `status` with default `0`, map it
through the two status tables, convert the `time` field, and assemble
the `GNSSData`. -/
def _process_tpv (kvs : List (String × Json)) (st : ReaderState) :
    Except PyErr GNSSData := do
  let status := (pyGet kvs ("status")).getD (.num 0)
  let fix_quality := statusLookup _STATUS_TO_FIX_QUALITY status 0
  let utc_time ← _tpv_utc_time kvs
  let gga := _build_gga kvs st fix_quality utc_time
  let vtg ← _build_vtg kvs status
  pure ⟨gga, some vtg⟩

/-- Embeds `GNSSReader._dispatch(line)`, applied to the outcome of
`json.loads(line)` (`.error` for a line that is not JSON): a decode
failure is swallowed (`except json.JSONDecodeError: return None`), a
decoded object is dispatched on its `class` field, and `msg.get` on a
decoded non-object raises `AttributeError`. -/
def _dispatch (decoded : Except Unit Json) (st : ReaderState) :
    Except PyErr (ReaderState × Option GNSSData) :=
  match decoded with
  | .error _ => .ok (st, none)
  | .ok (.obj kvs) =>
    let cls := pyGet kvs ("class")
    if clsIs cls ("SKY") then .ok (_process_sky kvs st, none)
    else if clsIs cls ("TPV") then do
      let d ← _process_tpv kvs st
      pure (st, some d)
    else .ok (st, none)
  | .ok _ => .error .attributeError

/-- One outcome of `stream.readline()` on the gpsd socket stream.  A
non-empty line is represented by the outcome of decoding it as JSON
(`.error ()` for non-JSON text); `empty` is a `b""` return (EOF),
`timeout` a `TimeoutError`, `oserror` an `OSError`. -/
inductive RecvOutcome where
  | line (decoded : Except Unit Json)
  | empty
  | timeout
  | oserror

/-- Embeds `GNSSReader._recv_raw`: an empty read or an `OSError` raises
`EOFError`; a timeout returns `None` for retry. -/
def _recv_raw (o : RecvOutcome) : Except PyErr (Option (Except Unit Json)) :=
  match o with
  | .line d => .ok (some d)
  | .empty => .error .eofError
  | .timeout => .ok none
  | .oserror => .error .eofError

/-- Embeds `GNSSReader._read_line`: on a timeout retry, raise `EOFError` when
the reader has been cancelled, else return `None`. -/
def _read_line (cancelled : Bool) (o : RecvOutcome) :
    Except PyErr (Option (Except Unit Json)) := do
  let raw ← _recv_raw o
  match raw with
  | none => if cancelled then .error .eofError else pure none
  | some d => pure (some d)

/-- Embeds `GNSSReader.read()` run against a finite script of socket outcomes:
loop `_read_line` / `_dispatch` until a TPV sample is produced.  Returns
`.ok none` when the script is exhausted while the real loop would still
be blocking. -/
def readRun (cancelled : Bool) : List RecvOutcome → ReaderState →
    Except PyErr (Option GNSSData)
  | [], _ => .ok none
  | o :: rest, st => do
    let lineOpt ← _read_line cancelled o
    match lineOpt with
    | none => readRun cancelled rest st
    | some decoded =>
      let r ← _dispatch decoded st
      match r.2 with
      | some d => pure (some d)
      | none => readRun cancelled rest r.1

/-- Embeds `GNSSReader.cancel()` sets the cancellation flag and half-closes the
socket with `shutdown(SHUT_RDWR)`.  Modelled socket behaviour after the
shutdown: no further payload is delivered, so a (pending or subsequent)
`readline` finishes within its current timeout period with `b""`, an
`OSError`, or a `TimeoutError`. -/
def postShutdownOutcome (o : RecvOutcome) : Prop :=
  o = .empty ∨ o = .oserror ∨ o = .timeout

end Gpsd

/-! ## NMEA micro-parsers (src/sensing/nmea/)

Number conversion: Python `float(...)` / `int(...)` raise `ValueError` on
text they cannot parse; both are used only under `try/except ValueError`,
so they are modelled as `Option`-valued parsers applied at those call
sites.  The model covers the sign/digits/decimal-point grammar that NMEA
fields use; exotic inputs Python would additionally accept (exponents,
`inf`/`nan`, underscores, a `0x` prefix for base 16) parse to `none`,
which at every call site is indistinguishable from a caught
`ValueError`. -/

/-- Fold a string of decimal digits to its value. -/
def decDigitsFold (s : Str) : ℕ :=
  s.foldl (fun a c => 10 * a + (c.toNat - 48)) 0

/-- A non-empty all-digit string, or `none`. -/
def digitsVal? (s : Str) : Option ℕ :=
  if s.isEmpty then none
  else if s.all Char.isDigit then some (decDigitsFold s)
  else none

/-- Python `int(s)`. -/
def pyInt? (s : Str) : Option ℤ :=
  let t := pyStrip s
  match t with
  | '+' :: rest => (digitsVal? rest).map (fun n => (n : ℤ))
  | '-' :: rest => (digitsVal? rest).map (fun n => -(n : ℤ))
  | _ => (digitsVal? t).map (fun n => (n : ℤ))

/-- Value of a hexadecimal digit. -/
def hexDigit? (c : Char) : Option ℕ :=
  if c.isDigit then some (c.toNat - 48)
  else if 97 ≤ c.toNat ∧ c.toNat ≤ 102 then some (c.toNat - 87)
  else if 65 ≤ c.toNat ∧ c.toNat ≤ 70 then some (c.toNat - 55)
  else none

/-- A non-empty all-hex-digit string, or `none`. -/
def hexDigitsVal? (s : Str) : Option ℕ :=
  if s.isEmpty then none
  else s.foldl
    (fun acc c => do
      let a ← acc
      let d ← hexDigit? c
      pure (16 * a + d))
    (some 0)

/-- Python `int(s, 16)`. -/
def pyIntBase16? (s : Str) : Option ℤ :=
  let t := pyStrip s
  match t with
  | '+' :: rest => (hexDigitsVal? rest).map (fun n => (n : ℤ))
  | '-' :: rest => (hexDigitsVal? rest).map (fun n => -(n : ℤ))
  | _ => (hexDigitsVal? t).map (fun n => (n : ℤ))

/-- Unsigned decimal mantissa: `digits`, `digits.digits`, `digits.`, or
`.digits`. -/
def pyFloatMantissa? (t : Str) : Option ℚ :=
  if t.contains '.' then
    let p := splitOnceAt '.' t
    if p.1.all Char.isDigit ∧ p.2.all Char.isDigit ∧ ¬ (p.1.isEmpty ∧ p.2.isEmpty)
    then some ((decDigitsFold p.1 : ℚ) + (decDigitsFold p.2 : ℚ) / ((10 : ℚ) ^ p.2.length))
    else none
  else (digitsVal? t).map (fun n => (n : ℚ))

/-- Python `float(s)` (floats are modelled as exact rationals). -/
def pyFloat? (s : Str) : Option ℚ :=
  let t := pyStrip s
  match t with
  | '+' :: rest => pyFloatMantissa? rest
  | '-' :: rest => (pyFloatMantissa? rest).map Neg.neg
  | _ => pyFloatMantissa? t

/-! ### src/sensing/nmea/fields.py -/

/-- Embeds `VALID_TALKER_IDS = ("GP", "GN", "GL", "GA", "GB", "GQ")`. -/
def VALID_TALKER_IDS : List Str :=
  ["GP".toList, "GN".toList, "GL".toList, "GA".toList, "GB".toList, "GQ".toList]

/-- Embeds `parse_float_field`: empty or unparseable fields map to `None`. -/
def parse_float_field (value : Str) : Option ℚ :=
  if value.isEmpty then none else pyFloat? value

/-- Embeds `parse_int_field`: empty or unparseable fields map to `None`. -/
def parse_int_field (value : Str) : Option ℤ :=
  if value.isEmpty then none else pyInt? value

/-- Embeds `parse_string_field`: empty fields map to `None`. -/
def parse_string_field (value : Str) : Option Str :=
  if value.isEmpty then none else some value

/-- Embeds `_parse_coordinate_parts`: split `DDDMM.MMMM` two digits before the
decimal point; `value.index(".")`, `int(...)` and `float(...)` failures
are caught by the local `except (ValueError, IndexError)`. -/
def _parse_coordinate_parts (value : Str) : Option (ℤ × ℚ) :=
  match pyIndexChar value '.' with
  | .error _ => none
  | .ok dot =>
    match pyInt? (pySlice value 0 ((dot : ℤ) - 2)),
        pyFloat? (pySliceFrom value ((dot : ℤ) - 2)) with
    | some d, some m => some (d, m)
    | _, _ => none

/-- Embeds `convert_to_decimal_degrees`: `degrees + minutes/60`, negated for the
southern/western hemisphere. -/
def convert_to_decimal_degrees (value direction : Str) : Option ℚ :=
  if value.isEmpty ∨ direction.isEmpty then none
  else
    match _parse_coordinate_parts value with
    | none => none
    | some (degrees, minutes) =>
      let decimal_degrees := (degrees : ℚ) + minutes / 60
      if direction = "S".toList ∨ direction = "W".toList then some (-decimal_degrees)
      else some decimal_degrees

/-! ### src/sensing/nmea/checksum.py -/

/-- Embeds `_extract_checksum_parts`: content between `$` and `*` plus the two
checksum characters, or `None` for a malformed frame.  The `index` calls
can raise `ValueError` in Python; they are guarded by the `startswith`
and containment checks. -/
def _extract_checksum_parts (sentence : Str) : Except PyErr (Option (Str × Str)) := do
  if ¬ (pyStartsWithChar sentence '$') ∨ ¬ (sentence.contains '*') then
    pure none
  else do
    let idx ← pyIndexChar sentence '$'
    let start := (idx : ℤ) + 1
    let e ← pyIndexChar sentence '*'
    let content := pySlice sentence start (e : ℤ)
    let provided := pySlice sentence ((e : ℤ) + 1) ((e : ℤ) + 3)
    if provided.length ≠ 2 then pure none
    else pure (some (content, provided))

/-- Embeds `_calculate_xor_checksum`: XOR of the code points of the content. -/
def _calculate_xor_checksum (content : Str) : ℕ :=
  content.foldl (fun result c => result ^^^ c.toNat) 0

/-- Embeds `validate_checksum`: strip, extract frame, XOR-compare against the
provided hex checksum; `int(provided, 16)` failures are caught by the
local `except ValueError` and yield `False`. -/
def validate_checksum (sentence : Str) : Except PyErr Bool := do
  let sentence := pyStrip sentence
  let parts ← _extract_checksum_parts sentence
  match parts with
  | none => pure false
  | some (content, provided) =>
    match pyIntBase16? provided with
    | none => pure false
    | some v => pure (decide ((_calculate_xor_checksum content : ℤ) = v))

/-! ### src/sensing/nmea/vtg.py and gga.py -/

/-- The parser-level `except (ValueError, IndexError): return None`
wrapper of `parse_vtg` / `parse_gga`. -/
def catchVI {α : Type} (x : Except PyErr (Option α)) : Except PyErr (Option α) :=
  match x with
  | .error .valueError => .ok none
  | .error .indexError => .ok none
  | r => r

namespace Vtg

/-- Embeds `_KILOMETERS_PER_HOUR_TO_METERS_PER_SECOND = 3.6`. -/
def _KILOMETERS_PER_HOUR_TO_METERS_PER_SECOND : ℚ := 3.6

/-- The `VTGData` dataclass as instantiated by the NMEA parser. -/
structure VTGData where
  track_true_degrees : Option ℚ
  speed_knots : Option ℚ
  speed_kilometers_per_hour : Option ℚ
  speed_meters_per_second : Option ℚ
  mode : Option Str
  valid : Bool
  deriving DecidableEq, Repr

/-- Embeds `vtg._extract_fields`: split the content between `$` and `*` on
commas; fewer than 9 fields is a malformed frame. -/
def _extract_fields (sentence : Str) : Except PyErr (Option (List Str)) := do
  let e ← pyIndexChar sentence '*'
  let fields := pySplit ',' (pySlice sentence 1 (e : ℤ))
  if fields.length < 9 then pure none
  else pure (some fields)

/-- Embeds `vtg._validate_message_type`: supported talker ID and sentence type
`VTG`. -/
def _validate_message_type (fields : List Str) : Except PyErr Bool := do
  let message_type ← pyListGet fields 0
  if message_type.length < 5 then pure false
  else
    pure (decide (VALID_TALKER_IDS.contains (pySlice message_type 0 2) = true ∧
      pySliceFrom message_type 2 = "VTG".toList))

/-- Embeds `vtg._extract_mode`: the FAA mode at index 9, when present. -/
def _extract_mode (fields : List Str) : Except PyErr (Option Str) := do
  if fields.length ≤ 9 then pure none
  else do
    let f ← pyListGet fields 9
    pure (parse_string_field f)

/-- Embeds `_compute_speed_meters_per_second`: km/h divided by 3.6, absent iff
the input is absent. -/
def _compute_speed_meters_per_second (speed_kilometers_per_hour : Option ℚ) : Option ℚ :=
  match speed_kilometers_per_hour with
  | none => none
  | some kph => some (kph / _KILOMETERS_PER_HOUR_TO_METERS_PER_SECOND)

/-- Embeds `_build_vtg_data`: map field indices to `VTGData` attributes;
`valid = mode is not None and mode != "N"`. -/
def _build_vtg_data (fields : List Str) : Except PyErr VTGData := do
  let f7 ← pyListGet fields 7
  let speed_kilometers_per_hour := parse_float_field f7
  let mode ← _extract_mode fields
  let f1 ← pyListGet fields 1
  let f5 ← pyListGet fields 5
  pure
    { track_true_degrees := parse_float_field f1
      speed_knots := parse_float_field f5
      speed_kilometers_per_hour := speed_kilometers_per_hour
      speed_meters_per_second :=
        _compute_speed_meters_per_second speed_kilometers_per_hour
      mode := mode
      valid := mode.isSome && decide (mode ≠ some ("N".toList)) }

/-- The body of the `try` block of `parse_vtg`: extract fields, validate
the message type, build the data. -/
def _parse_vtg_body (sentence : Str) : Except PyErr (Option VTGData) := do
  let fields? ← _extract_fields sentence
  match fields? with
  | none => pure none
  | some fields => do
    let v ← _validate_message_type fields
    if !v then pure none
    else do
      let d ← _build_vtg_data fields
      pure (some d)

/-- Embeds `parse_vtg`: strip, validate the checksum, then run the `try` block,
with `ValueError` / `IndexError` from it mapped to `None`. -/
def parse_vtg (sentence : Str) : Except PyErr (Option VTGData) := do
  let sentence := pyStrip sentence
  let chk ← validate_checksum sentence
  if !chk then pure none
  else catchVI (_parse_vtg_body sentence)

end Vtg

namespace Gga

/-- The `GGAData` dataclass as instantiated by the NMEA parser. -/
structure GGAData where
  utc_time : Option Str
  latitude_degrees : Option ℚ
  longitude_degrees : Option ℚ
  fix_quality : ℤ
  num_satellites : Option ℤ
  horizontal_dilution_of_precision : Option ℚ
  altitude_meters : Option ℚ
  geoid_height_meters : Option ℚ
  valid : Bool
  deriving DecidableEq, Repr

/-- Embeds `gga._extract_fields`: split the content between `$` and `*` on
commas; fewer than 14 fields is a malformed frame. -/
def _extract_fields (sentence : Str) : Except PyErr (Option (List Str)) := do
  let e ← pyIndexChar sentence '*'
  let fields := pySplit ',' (pySlice sentence 1 (e : ℤ))
  if fields.length < 14 then pure none
  else pure (some fields)

/-- Embeds `gga._validate_message_type`: supported talker ID and sentence type
`GGA`. -/
def _validate_message_type (fields : List Str) : Except PyErr Bool := do
  let message_type ← pyListGet fields 0
  if message_type.length < 5 then pure false
  else
    pure (decide (VALID_TALKER_IDS.contains (pySlice message_type 0 2) = true ∧
      pySliceFrom message_type 2 = "GGA".toList))

/-- Embeds `_build_gga_data`: map field indices to `GGAData` attributes.
`fix_quality = parse_int_field(fields[6]) or 0`: Python `or` replaces
both `None` and a parsed `0` by `0`, i.e. `getD 0`. -/
def _build_gga_data (fields : List Str) : Except PyErr GGAData := do
  let f6 ← pyListGet fields 6
  let fix_quality := (parse_int_field f6).getD 0
  let f1 ← pyListGet fields 1
  let f2 ← pyListGet fields 2
  let f3 ← pyListGet fields 3
  let f4 ← pyListGet fields 4
  let f5 ← pyListGet fields 5
  let f7 ← pyListGet fields 7
  let f8 ← pyListGet fields 8
  let f9 ← pyListGet fields 9
  let f11 ← pyListGet fields 11
  pure
    { utc_time := parse_string_field f1
      latitude_degrees := convert_to_decimal_degrees f2 f3
      longitude_degrees := convert_to_decimal_degrees f4 f5
      fix_quality := fix_quality
      num_satellites := parse_int_field f7
      horizontal_dilution_of_precision := parse_float_field f8
      altitude_meters := parse_float_field f9
      geoid_height_meters := parse_float_field f11
      valid := decide (fix_quality > 0) }

/-- The body of the `try` block of `parse_gga`: extract fields, validate
the message type, build the data. -/
def _parse_gga_body (sentence : Str) : Except PyErr (Option GGAData) := do
  let fields? ← _extract_fields sentence
  match fields? with
  | none => pure none
  | some fields => do
    let v ← _validate_message_type fields
    if !v then pure none
    else do
      let d ← _build_gga_data fields
      pure (some d)

/-- Embeds `parse_gga`: strip, validate the checksum, then run the `try` block,
with `ValueError` / `IndexError` from it mapped to `None`. -/
def parse_gga (sentence : Str) : Except PyErr (Option GGAData) := do
  let sentence := pyStrip sentence
  let chk ← validate_checksum sentence
  if !chk then pure none
  else catchVI (_parse_gga_body sentence)

end Gga

/-! ## Claim-side tables and concrete inputs -/

/-- A concrete trace with six successful reads and one timeout. -/
def imuTraceEx : List ReadResult :=
  [.sample ⟨0, 0, 0, 0, 0, 0, 0⟩, .timeout, .sample ⟨0, 0, 0, 0, 0, 0, 0⟩,
   .sample ⟨0, 0, 0, 0, 0, 0, 0⟩, .sample ⟨0, 0, 0, 0, 0, 0, 0⟩,
   .sample ⟨0, 0, 0, 0, 0, 0, 0⟩, .sample ⟨0, 0, 0, 0, 0, 0, 0⟩]

/-- The status → GGA fix-quality table `{0→0, 1→1, 2→2, 3→4, 4→5, 5→6}`
exactly as the claim states it, for comparison with the code's table. -/
def claimFixQuality : ℤ → ℤ
  | 0 => 0
  | 1 => 1
  | 2 => 2
  | 3 => 4
  | 4 => 5
  | 5 => 6
  | _ => 0

/-- The status → VTG mode table `{0→N, 1→A, 2→D, 3→D, 4→D, 5→E}` exactly
as the claim states it, for comparison with the code's table. -/
def claimVtgMode : ℤ → String
  | 0 => "N"
  | 1 => "A"
  | 2 => "D"
  | 3 => "D"
  | 4 => "D"
  | 5 => "E"
  | _ => "N"

/-- A concrete decoded TPV message with integer status 3. -/
def tpvWitnessMsg : List (String × Json) :=
  [("class", .str ("TPV")), ("status", .num ((3 : ℤ) : ℚ)),
   ("time", .str ("2025-03-01T12:35:19.000Z")), ("lat", .num 48.1173)]

/-- The `GNSSData` the reader emits for `tpvWitnessMsg` after a SKY
message stored 12 satellites and HDOP 0.5. -/
def tpvWitnessData : Gpsd.GNSSData :=
  ⟨⟨some ("123519.00".toList), some (.num 48.1173), none, 4,
    some (.num 12), some (.num 0.5), none, none, true⟩,
   some ⟨none, none, none, none, "D", true⟩⟩

/-- A VTG sentence with empty numeric fields and FAA mode `A` (`3D` is
the XOR checksum of its content). -/
def vtgWitnessSentence : Str := "$GNVTG,,T,,M,,N,,K,A*3D".toList

/-- The parse result of `vtgWitnessSentence`. -/
def vtgWitnessData : Vtg.VTGData :=
  ⟨none, none, none, none, some ("A".toList), true⟩

/-- Embeds `x` raises nothing outside `ValueError` / `IndexError` — the two
exception types the parsers' `try` blocks catch. -/
def OnlyVI {α : Type} (x : Except PyErr α) : Prop :=
  ∀ e, x = .error e → e = .valueError ∨ e = .indexError

/-! ## Helper lemmas -/

/-- Final counter of the `server.sensors` IMU loop: the counter advances
exactly by the number of successful reads. -/
theorem runLoop_counter_process (rs : List ReadResult) (c : ℤ) :
    (runLoop _process_imu_reading rs c).1 = c + successCount rs := by
  induction rs generalizing c with
  | nil => simp [runLoop, successCount]
  | cons r rs ih =>
    cases r with
    | timeout => simpa [runLoop, successCount, _process_imu_reading] using ih c
    | sample d =>
      simp only [runLoop, successCount, _process_imu_reading, ih]
      push_cast
      omega

/-- Final counter of the `server.main` IMU loop: the counter advances
exactly by the number of successful reads. -/
theorem runLoop_counter_main (rs : List ReadResult) (c : ℤ) :
    (runLoop _run_imu_thread_step rs c).1 = c + successCount rs := by
  induction rs generalizing c with
  | nil => simp [runLoop, successCount]
  | cons r rs ih =>
    cases r with
    | timeout => simpa [runLoop, successCount, _run_imu_thread_step] using ih c
    | sample d =>
      simp only [runLoop, successCount, _run_imu_thread_step, ih]
      push_cast
      omega

/-- Broadcast flag of the `k`-th successful sample (0-based) in the
`server.sensors` loop started at counter `c`. -/
theorem runLoop_flags_process (rs : List ReadResult) (c : ℤ) (i : ℕ)
    (h : i < (runLoop _process_imu_reading rs c).2.length) :
    (runLoop _process_imu_reading rs c).2.get ⟨i, h⟩ = decide ((c + i) % 5 = 0) := by
  induction rs generalizing c i with
  | nil => simp [runLoop] at h
  | cons r rs ih =>
    cases r with
    | timeout =>
      simp only [runLoop] at h ⊢
      exact ih c i h
    | sample d =>
      cases i with
      | zero =>
        simp [runLoop, _process_imu_reading]
        by_cases hc : (5 : ℤ) ∣ c <;> simp [hc]
      | succ i =>
        simp only [runLoop, _process_imu_reading, List.get] at h ⊢
        rw [show (runLoop _process_imu_reading rs (c + 1)).2.get _
            = decide ((c + 1 + i) % 5 = 0) from ih (c + 1) i (by simpa using h)]
        congr 1
        push_cast
        ring

/-- Broadcast flag of the `k`-th successful sample (0-based) in the
`server.main` loop started at counter `c`. -/
theorem runLoop_flags_main (rs : List ReadResult) (c : ℤ) (i : ℕ)
    (h : i < (runLoop _run_imu_thread_step rs c).2.length) :
    (runLoop _run_imu_thread_step rs c).2.get ⟨i, h⟩ = decide ((c + i + 1) % 5 = 0) := by
  induction rs generalizing c i with
  | nil => simp [runLoop] at h
  | cons r rs ih =>
    cases r with
    | timeout =>
      simp only [runLoop] at h ⊢
      exact ih c i h
    | sample d =>
      cases i with
      | zero =>
        simp [runLoop, _run_imu_thread_step]
        by_cases hc : (5 : ℤ) ∣ (c + 1) <;> simp [hc]
      | succ i =>
        simp only [runLoop, _run_imu_thread_step, List.get] at h ⊢
        rw [show (runLoop _run_imu_thread_step rs (c + 1)).2.get _
            = decide ((c + 1 + i + 1) % 5 = 0) from ih (c + 1) i (by simpa using h)]
        congr 1
        push_cast
        ring

/-- Helper: `pyIndexChar` finds index 0 on a string starting with the needle. -/
theorem pyIndexChar_of_startsWith (s : Str) (c : Char)
    (h : pyStartsWithChar s c = true) : pyIndexChar s c = .ok 0 := by
  cases s with
  | nil => simp [pyStartsWithChar] at h
  | cons a rest =>
    simp only [pyStartsWithChar, decide_eq_true_eq] at h
    simp [pyIndexChar, idxOfChar?, h]

/-- Helper: `pyIndexChar` succeeds on a string containing the needle. -/
theorem pyIndexChar_of_contains (s : Str) (c : Char)
    (h : s.contains c = true) : ∃ i, pyIndexChar s c = .ok i := by
  induction s with
  | nil => simp [List.contains] at h
  | cons a rest ih =>
    by_cases hac : a = c
    · exact ⟨0, by simp [pyIndexChar, idxOfChar?, hac]⟩
    · have h2 : rest.contains c = true := by
        simp only [List.contains_cons, Bool.or_eq_true, beq_iff_eq] at h
        tauto
      obtain ⟨i, hi⟩ := ih h2
      have hidx : idxOfChar? c rest = some i := by
        unfold pyIndexChar at hi
        cases hr : idxOfChar? c rest with
        | some j => rw [hr] at hi; cases hi; rfl
        | none => rw [hr] at hi; cases hi
      exact ⟨i + 1, by simp [pyIndexChar, idxOfChar?, hac, hidx]⟩

/-- Helper: `pyIndexChar` raises only `ValueError`. -/
theorem onlyVI_pyIndexChar (s : Str) (c : Char) : OnlyVI (pyIndexChar s c) := by
  intro e he
  unfold pyIndexChar at he
  split at he
  · cases he
  · cases he
    exact Or.inl rfl

/-- Helper: `pyListGet` raises only `IndexError`. -/
theorem onlyVI_pyListGet {α : Type} (l : List α) (i : ℕ) : OnlyVI (pyListGet l i) := by
  intro e he
  unfold pyListGet at he
  split at he
  · cases he
  · cases he
    exact Or.inr rfl

/-- Helper: `pure` raises nothing. -/
theorem onlyVI_pure {α : Type} (a : α) : OnlyVI (pure a : Except PyErr α) := by
  intro e he
  cases he

/-- A bind of computations raising only `ValueError` / `IndexError`
raises only those. -/
theorem onlyVI_bind {α β : Type} {x : Except PyErr α} {f : α → Except PyErr β}
    (hx : OnlyVI x) (hf : ∀ a, OnlyVI (f a)) : OnlyVI (x >>= f) := by
  intro e he
  cases x with
  | error e2 =>
    have h2 : e2 = e := by simpa [Bind.bind, Except.bind] using he
    exact h2 ▸ hx e2 rfl
  | ok a =>
    exact hf a e (by simpa [Bind.bind, Except.bind] using he)

/-- Helper: `vtg._extract_fields` raises only `ValueError` / `IndexError`. -/
theorem onlyVI_extract_fields_vtg (s : Str) : OnlyVI (Vtg._extract_fields s) := by
  unfold Vtg._extract_fields
  refine onlyVI_bind (onlyVI_pyIndexChar s '*') fun a => ?_
  intro e he
  simp only [Pure.pure, Except.pure] at he
  split at he <;> cases he

/-- Helper: `gga._extract_fields` raises only `ValueError` / `IndexError`. -/
theorem onlyVI_extract_fields_gga (s : Str) : OnlyVI (Gga._extract_fields s) := by
  unfold Gga._extract_fields
  refine onlyVI_bind (onlyVI_pyIndexChar s '*') fun a => ?_
  intro e he
  simp only [Pure.pure, Except.pure] at he
  split at he <;> cases he

/-- Helper: `vtg._validate_message_type` raises only `ValueError` / `IndexError`. -/
theorem onlyVI_validate_message_type_vtg (fields : List Str) :
    OnlyVI (Vtg._validate_message_type fields) := by
  unfold Vtg._validate_message_type
  refine onlyVI_bind (onlyVI_pyListGet fields 0) fun a => ?_
  split
  · exact onlyVI_pure _
  · exact onlyVI_pure _

/-- Helper: `gga._validate_message_type` raises only `ValueError` / `IndexError`. -/
theorem onlyVI_validate_message_type_gga (fields : List Str) :
    OnlyVI (Gga._validate_message_type fields) := by
  unfold Gga._validate_message_type
  refine onlyVI_bind (onlyVI_pyListGet fields 0) fun a => ?_
  split
  · exact onlyVI_pure _
  · exact onlyVI_pure _

/-- Helper: `vtg._extract_mode` raises only `ValueError` / `IndexError`. -/
theorem onlyVI_extract_mode (fields : List Str) :
    OnlyVI (Vtg._extract_mode fields) := by
  unfold Vtg._extract_mode
  split
  · exact onlyVI_pure _
  · exact onlyVI_bind (onlyVI_pyListGet fields 9) fun a => onlyVI_pure _

/-- Helper: `_build_vtg_data` raises only `ValueError` / `IndexError`. -/
theorem onlyVI_build_vtg_data (fields : List Str) :
    OnlyVI (Vtg._build_vtg_data fields) := by
  unfold Vtg._build_vtg_data
  refine onlyVI_bind (onlyVI_pyListGet fields 7) fun f7 => ?_
  refine onlyVI_bind (onlyVI_extract_mode fields) fun mode => ?_
  refine onlyVI_bind (onlyVI_pyListGet fields 1) fun f1 => ?_
  exact onlyVI_bind (onlyVI_pyListGet fields 5) fun f5 => onlyVI_pure _

/-- Helper: `_build_gga_data` raises only `ValueError` / `IndexError`. -/
theorem onlyVI_build_gga_data (fields : List Str) :
    OnlyVI (Gga._build_gga_data fields) := by
  unfold Gga._build_gga_data
  refine onlyVI_bind (onlyVI_pyListGet fields 6) fun f6 => ?_
  refine onlyVI_bind (onlyVI_pyListGet fields 1) fun f1 => ?_
  refine onlyVI_bind (onlyVI_pyListGet fields 2) fun f2 => ?_
  refine onlyVI_bind (onlyVI_pyListGet fields 3) fun f3 => ?_
  refine onlyVI_bind (onlyVI_pyListGet fields 4) fun f4 => ?_
  refine onlyVI_bind (onlyVI_pyListGet fields 5) fun f5 => ?_
  refine onlyVI_bind (onlyVI_pyListGet fields 7) fun f7 => ?_
  refine onlyVI_bind (onlyVI_pyListGet fields 8) fun f8 => ?_
  refine onlyVI_bind (onlyVI_pyListGet fields 9) fun f9 => ?_
  exact onlyVI_bind (onlyVI_pyListGet fields 11) fun f11 => onlyVI_pure _

/-- The `try` body of `parse_vtg` raises only `ValueError` / `IndexError`. -/
theorem onlyVI_parse_vtg_body (s : Str) : OnlyVI (Vtg._parse_vtg_body s) := by
  unfold Vtg._parse_vtg_body
  refine onlyVI_bind (onlyVI_extract_fields_vtg s) fun fields? => ?_
  cases fields? with
  | none => exact onlyVI_pure _
  | some fields =>
    refine onlyVI_bind (onlyVI_validate_message_type_vtg fields) fun v => ?_
    split
    · exact onlyVI_pure _
    · exact onlyVI_bind (onlyVI_build_vtg_data fields) fun d => onlyVI_pure _

/-- The `try` body of `parse_gga` raises only `ValueError` / `IndexError`. -/
theorem onlyVI_parse_gga_body (s : Str) : OnlyVI (Gga._parse_gga_body s) := by
  unfold Gga._parse_gga_body
  refine onlyVI_bind (onlyVI_extract_fields_gga s) fun fields? => ?_
  cases fields? with
  | none => exact onlyVI_pure _
  | some fields =>
    refine onlyVI_bind (onlyVI_validate_message_type_gga fields) fun v => ?_
    split
    · exact onlyVI_pure _
    · exact onlyVI_bind (onlyVI_build_gga_data fields) fun d => onlyVI_pure _

/-- The `except (ValueError, IndexError)` wrapper returns normally on
any computation raising only those. -/
theorem catchVI_total {α : Type} (x : Except PyErr (Option α)) (h : OnlyVI x) :
    ∃ y, catchVI x = .ok y := by
  cases x with
  | ok y => exact ⟨y, rfl⟩
  | error e => rcases h e rfl with he | he <;> subst he <;> exact ⟨none, rfl⟩

/-- Helper: `catchVI` returns `some` only when the wrapped computation did. -/
theorem catchVI_ok_some {α : Type} (x : Except PyErr (Option α)) (v : α)
    (h : catchVI x = .ok (some v)) : x = .ok (some v) := by
  cases x with
  | ok y => simpa [catchVI] using h
  | error e => cases e <;> simp [catchVI] at h

/-- Helper: `_extract_checksum_parts` returns normally on every input. -/
theorem extract_checksum_parts_total (s : Str) :
    ∃ p, _extract_checksum_parts s = .ok p := by
  unfold _extract_checksum_parts
  by_cases h1 : pyStartsWithChar s '$' = true
  · by_cases h2 : s.contains '*' = true
    · have hidx1 := pyIndexChar_of_startsWith s '$' h1
      obtain ⟨i, hidx2⟩ := pyIndexChar_of_contains s '*' h2
      rw [if_neg (by push_neg; exact ⟨h1, h2⟩)]
      simp only [hidx1, hidx2, Bind.bind, Except.bind]
      split
      · exact ⟨none, rfl⟩
      · exact ⟨_, rfl⟩
    · exact ⟨none, by rw [if_pos (Or.inr h2)]; rfl⟩
  · exact ⟨none, by rw [if_pos (Or.inl h1)]; rfl⟩

/-- Helper: `validate_checksum` returns normally on every input. -/
theorem validate_checksum_total (s : Str) : ∃ b, validate_checksum s = .ok b := by
  unfold validate_checksum
  obtain ⟨p, hp⟩ := extract_checksum_parts_total (pyStrip s)
  rcases p with _ | ⟨content, provided⟩
  · exact ⟨false, by simp [Bind.bind, Except.bind, Pure.pure, Except.pure, hp]⟩
  · cases hx : pyIntBase16? provided with
    | none =>
      exact ⟨false, by simp [Bind.bind, Except.bind, Pure.pure, Except.pure, hp, hx]⟩
    | some v =>
      exact ⟨decide ((_calculate_xor_checksum content : ℤ) = v),
        by simp [Bind.bind, Except.bind, Pure.pure, Except.pure, hp, hx]⟩

/-- Structural facts about any `VTGData` built by `_build_vtg_data`:
m/s is km/h divided by 3.6 (absent iff km/h absent) and
`valid = (mode present ∧ mode ≠ "N")`. -/
theorem build_vtg_data_props (fields : List Str) (v : Vtg.VTGData)
    (h : Vtg._build_vtg_data fields = .ok v) :
    v.speed_meters_per_second
      = v.speed_kilometers_per_hour.map (fun kph => kph / (3.6 : ℚ)) ∧
    (v.speed_meters_per_second = none ↔ v.speed_kilometers_per_hour = none) ∧
    (v.valid = true ↔ v.mode ≠ none ∧ v.mode ≠ some ("N".toList)) := by
  unfold Vtg._build_vtg_data at h
  cases h7 : pyListGet fields 7 with
  | error e => rw [h7] at h; simp [Bind.bind, Except.bind] at h
  | ok f7 =>
    rw [h7] at h
    simp only [Bind.bind, Except.bind] at h
    cases hm : Vtg._extract_mode fields with
    | error e => rw [hm] at h; simp at h
    | ok mode =>
      rw [hm] at h
      simp only at h
      cases h1 : pyListGet fields 1 with
      | error e => rw [h1] at h; simp at h
      | ok f1 =>
        rw [h1] at h
        simp only at h
        cases h5 : pyListGet fields 5 with
        | error e => rw [h5] at h; simp at h
        | ok f5 =>
          rw [h5] at h
          simp only [Pure.pure, Except.pure, Except.ok.injEq] at h
          subst h
          refine ⟨?_, ?_, ?_⟩
          · cases hk : parse_float_field f7 <;>
              simp [Vtg._compute_speed_meters_per_second, hk,
                Vtg._KILOMETERS_PER_HOUR_TO_METERS_PER_SECOND]
          · cases hk : parse_float_field f7 <;>
              simp [Vtg._compute_speed_meters_per_second, hk]
          · cases mode <;> simp

/-! ## Claims -/

/-- C1 (the code violates the claim): at a read environment holding two
queued edge events whose kernel instants are `1700000000.5 s` and
`1700000000.51 s` (in nanoseconds) while `CLOCK_REALTIME` reads
`1700000000.6 s`, `IMUReader.read` emits one sample stamped with the
wall-clock value `1700000000.6` — sampled after the edge wait, not the
kernel-reported instant of any consumed edge — and consumes two edge
events for that single sample. -/
theorem imu_read_timestamp_is_wall_clock :
    IMUReader.read ⟨[⟨1700000000500000000⟩, ⟨1700000000510000000⟩],
        1700000000.6, List.replicate 13 0⟩
      = .ok ⟨1700000000.6, 0, 0, 0, 0, 0, 0⟩ ∧
    IMUReader.readConsumed ⟨[⟨1700000000500000000⟩, ⟨1700000000510000000⟩],
        1700000000.6, List.replicate 13 0⟩ = 2 ∧
    (1700000000.6 : ℚ) ≠ 1700000000.5 := by
  refine ⟨?_, by rfl, by norm_num⟩
  simp only [IMUReader.read, _read_sample, _parse_sample, List.replicate, List.take,
    List.drop, List.isEmpty]
  norm_num [toInt16, _ACCEL_SENSITIVITY, _GYRO_SENSITIVITY]

/-- C2 (the code violates the claim): `format_imu_message` reads
`data.timestamp_ns`, an attribute the `IMUData` dataclass does not
declare, so every call raises `AttributeError` instead of returning the
claimed JSON object. -/
theorem format_imu_message_raises_attribute_error (data : IMUData) :
    format_imu_message data = .error .attributeError := rfl

/-- C3 counterexample: the claim, stated over both cited IMU producer
loops, fails on `server.main._run_imu_thread`, which does not broadcast
the 1st successful sample (it increments the counter before the
`% 5` test): on a trace with a single successful read the main-loop
broadcast flag is `false`, while `server.sensors._process_imu_reading`
broadcasts that sample. -/
theorem imu_first_sample_not_broadcast_in_main_loop :
    (runLoop _run_imu_thread_step [.sample ⟨0, 0, 0, 0, 0, 0, 0⟩] 0).2 = [false] ∧
    (runLoop _process_imu_reading [.sample ⟨0, 0, 0, 0, 0, 0, 0⟩] 0).2 = [true] :=
  ⟨rfl, rfl⟩

/-- C3 (amended): in both IMU producer loops a timeout leaves the
decimation counter unchanged and the counter advances exactly on
successful reads; in `server.sensors._process_imu_reading` exactly the
1st, 6th, 11th, … successful samples are handed to the broadcast path
(0-based index `i` with `i % 5 = 0`), while in
`server.main._run_imu_thread` it is exactly the 5th, 10th, 15th, …
successful samples (`(i + 1) % 5 = 0`). -/
theorem imu_decimation_one_in_five (rs : List ReadResult) :
    (∀ c, (runLoop _process_imu_reading rs c).1 = c + successCount rs) ∧
    (∀ c, (runLoop _run_imu_thread_step rs c).1 = c + successCount rs) ∧
    (∀ i (h : i < (runLoop _process_imu_reading rs 0).2.length),
      (runLoop _process_imu_reading rs 0).2.get ⟨i, h⟩ = decide ((i : ℤ) % 5 = 0)) ∧
    (∀ i (h : i < (runLoop _run_imu_thread_step rs 0).2.length),
      (runLoop _run_imu_thread_step rs 0).2.get ⟨i, h⟩ = decide (((i : ℤ) + 1) % 5 = 0)) := by
  refine ⟨fun c => runLoop_counter_process rs c,
    fun c => runLoop_counter_main rs c, fun i h => ?_, fun i h => ?_⟩
  · simpa using runLoop_flags_process rs 0 i h
  · simpa using runLoop_flags_main rs 0 i h

/-- C3 witness: on the trace `success, timeout, success ×5` (six
successes) the sensors-loop counter ends at six; its 1st and 6th
successful samples are broadcast while the main loop broadcasts its 5th
successful sample but not its 1st. -/
theorem imu_decimation_one_in_five_witness :
    (runLoop _process_imu_reading imuTraceEx 0).1 = 0 + successCount imuTraceEx ∧
    (runLoop _process_imu_reading imuTraceEx 0).2.get ⟨0, by decide⟩
      = decide (((0 : ℕ) : ℤ) % 5 = 0) ∧
    (runLoop _process_imu_reading imuTraceEx 0).2.get ⟨5, by decide⟩
      = decide (((5 : ℕ) : ℤ) % 5 = 0) ∧
    (runLoop _run_imu_thread_step imuTraceEx 0).2.get ⟨4, by decide⟩
      = decide ((((4 : ℕ) : ℤ) + 1) % 5 = 0) :=
  ⟨(imu_decimation_one_in_five imuTraceEx).1 0,
   (imu_decimation_one_in_five imuTraceEx).2.2.1 0 (by decide),
   (imu_decimation_one_in_five imuTraceEx).2.2.1 5 (by decide),
   (imu_decimation_one_in_five imuTraceEx).2.2.2 4 (by decide)⟩

/-- C4 (the code violates the claim): `read()` does skip a non-JSON line
(second conjunct, where the following TPV line produces a sample), but a
line holding the JSON array `[1, 2, 3]` — a JSON value that is not an
object — makes `_dispatch` call `.get` on a list, which raises
`AttributeError` out of `read()` instead of being skipped. -/
theorem gpsd_read_non_object_json_raises :
    Gpsd.readRun false
        [.line (.ok (.arr [.num 1, .num 2, .num 3])),
         .line (.ok (.obj [("class", Json.str ("TPV"))]))] ⟨none, none⟩
      = .error .attributeError ∧
    Gpsd.readRun false
        [.line (.error ()),
         .line (.ok (.obj [("class", Json.str ("TPV"))]))] ⟨none, none⟩
      = .ok (some ⟨⟨none, none, none, 0, none, none, none, none, false⟩,
          some ⟨none, none, none, none, "N", false⟩⟩) :=
  ⟨rfl, rfl⟩

/-- C5 (the code violates the claim): on a SKY message carrying neither
`uSat` nor `nSat` but a `satellites[]` array with one `used == true`
entry, `_process_sky` stores `None` for the satellite count (the claim
requires the derived count 1, or at least the previous value 12 to be
left unchanged) and also clears the stored HDOP instead of keeping it. -/
theorem gpsd_process_sky_ignores_satellites :
    Gpsd._process_sky
        [("class", Json.str ("SKY")),
         ("satellites", Json.arr [Json.obj [("used", Json.bool true)]])]
        ⟨some (Json.num 12), some (Json.num 0.5)⟩
      = ⟨none, none⟩ :=
  rfl

/-- C7: for a subscriber queue of positive capacity holding at most
`maxsize` items, both enqueue implementations return normally (never
block or raise) with the same result; the size stays within
`0 ≤ size ≤ maxsize`; when the queue is full the oldest element is
dropped before the push, otherwise the message is appended.  The closed
conjunct is scenario S4: pushing A, B, C into an empty capacity-2 queue
leaves `[B, C]`. -/
theorem subscriber_queue_enqueue_bounds (q : PyQueue) (m : String)
    (hcap : 0 < q.maxsize) (hsize : q.items.length ≤ q.maxsize) :
    (∃ q2 : PyQueue, _enqueue_message q m = .ok q2 ∧ _enqueue q m = .ok q2 ∧
      q2.maxsize = q.maxsize ∧ q2.items.length ≤ q.maxsize ∧
      q2.items = (if q.items.length = q.maxsize then q.items.tail else q.items) ++ [m]) ∧
    (do
      let q1 ← _enqueue_message (⟨2, []⟩ : PyQueue) ("A")
      let q2 ← _enqueue_message q1 ("B")
      _enqueue_message q2 ("C")) = .ok (⟨2, ["B", "C"]⟩ : PyQueue) := by
  constructor
  · obtain ⟨n, items⟩ := q
    simp only at hcap hsize
    by_cases hfull : items.length = n
    · cases items with
      | nil =>
        simp only [List.length_nil] at hfull
        omega
      | cons x rest =>
        simp only [List.length_cons] at hfull hsize
        have hfullb : (PyQueue.mk n (x :: rest)).full = true := by
          simp [PyQueue.full]
          omega
        have hnotfull : (PyQueue.mk n rest).full = false := by
          simp [PyQueue.full]
          omega
        refine ⟨⟨n, rest ++ [m]⟩, ?_, ?_, rfl, ?_, ?_⟩
        · simp [_enqueue_message, hfullb, PyQueue.get_nowait, PyQueue.put_nowait,
            Bind.bind, Except.bind, Pure.pure, Except.pure, hnotfull]
        · simp [_enqueue, hfullb, PyQueue.get_nowait, PyQueue.put_nowait,
            Bind.bind, Except.bind, Pure.pure, Except.pure, hnotfull]
        · simp
          omega
        · simp only [List.length_cons, List.tail_cons]
          rw [if_pos hfull]
    · have hlt : items.length < n := lt_of_le_of_ne hsize hfull
      have hnotfull : (PyQueue.mk n items).full = false := by
        simp [PyQueue.full]
        omega
      refine ⟨⟨n, items ++ [m]⟩, ?_, ?_, rfl, ?_, ?_⟩
      · simp [_enqueue_message, hnotfull, PyQueue.put_nowait]
      · simp [_enqueue, hnotfull, PyQueue.put_nowait]
      · simp
        omega
      · rw [if_neg hfull]
  · rfl

/-- C7 witness: the enqueue theorem applied to a full capacity-2 queue
holding `["A", "B"]` and the message `"C"`. -/
theorem subscriber_queue_enqueue_bounds_witness :
    (∃ q2 : PyQueue, _enqueue_message ⟨2, ["A", "B"]⟩ ("C") = .ok q2 ∧
      _enqueue ⟨2, ["A", "B"]⟩ ("C") = .ok q2 ∧
      q2.maxsize = (⟨2, ["A", "B"]⟩ : PyQueue).maxsize ∧
      q2.items.length ≤ (⟨2, ["A", "B"]⟩ : PyQueue).maxsize ∧
      q2.items = (if (["A", "B"] : List String).length = 2
        then (["A", "B"] : List String).tail else ["A", "B"]) ++ ["C"]) ∧
    (do
      let q1 ← _enqueue_message (⟨2, []⟩ : PyQueue) ("A")
      let q2 ← _enqueue_message q1 ("B")
      _enqueue_message q2 ("C")) = .ok (⟨2, ["B", "C"]⟩ : PyQueue) :=
  subscriber_queue_enqueue_bounds ⟨2, ["A", "B"]⟩ ("C") (by decide) (by decide)

/-- Helper: on an integer status in `0..5` the code's status tables agree
with the claim's tables. -/
theorem statusLookup_agrees (s : ℤ) (h0 : 0 ≤ s) (h5 : s ≤ 5) :
    Gpsd.statusLookup Gpsd._STATUS_TO_FIX_QUALITY (.num (s : ℚ)) 0 = claimFixQuality s ∧
    Gpsd.statusLookup Gpsd._STATUS_TO_VTG_MODE (.num (s : ℚ)) ("N") = claimVtgMode s := by
  interval_cases s <;> exact ⟨rfl, rfl⟩

/-- Helper: the mode and validity flag of any `VTGData` built by
`Gpsd._build_vtg` come from the status table, with
`valid = (mode != "N")`. -/
theorem build_vtg_mode_valid (kvs : List (String × Json)) (status : Json)
    (v : Gpsd.VTGData) (h : Gpsd._build_vtg kvs status = .ok v) :
    v.mode = Gpsd.statusLookup Gpsd._STATUS_TO_VTG_MODE status ("N") ∧
    v.valid = decide (v.mode ≠ "N") := by
  unfold Gpsd._build_vtg at h
  cases hsp : pyGet kvs ("speed") with
  | none =>
    rw [hsp] at h
    cases h
    exact ⟨rfl, rfl⟩
  | some j =>
    cases j <;> rw [hsp] at h <;> first
      | (cases h; exact ⟨rfl, rfl⟩)
      | cases h

/-- Helper: a successful `_process_tpv` returns the GGA built by
`_build_gga` from the fix-quality table and the VTG built by
`_build_vtg`. -/
theorem process_tpv_ok_shape (kvs : List (String × Json)) (st : Gpsd.ReaderState)
    (d : Gpsd.GNSSData) (hok : Gpsd._process_tpv kvs st = .ok d) :
    ∃ utc vtg,
      Gpsd._build_vtg kvs ((pyGet kvs ("status")).getD (.num 0)) = .ok vtg ∧
      d = ⟨Gpsd._build_gga kvs st
          (Gpsd.statusLookup Gpsd._STATUS_TO_FIX_QUALITY
            ((pyGet kvs ("status")).getD (.num 0)) 0) utc, some vtg⟩ := by
  unfold Gpsd._process_tpv at hok
  cases hu : Gpsd._tpv_utc_time kvs with
  | error e =>
    rw [hu] at hok
    simp [Bind.bind, Except.bind] at hok
  | ok utc =>
    rw [hu] at hok
    simp only [Bind.bind, Except.bind] at hok
    cases hv : Gpsd._build_vtg kvs ((pyGet kvs ("status")).getD (.num 0)) with
    | error e =>
      rw [hv] at hok
      simp at hok
    | ok vtg =>
      rw [hv] at hok
      simp only [Pure.pure, Except.pure, Except.ok.injEq] at hok
      exact ⟨utc, vtg, rfl, hok.symm⟩

/-- C6: for every TPV message whose `status` field is an integer `s` in
`0..5`, the emitted `GNSSData` has `gga.fix_quality` given by the
claim's table `{0→0, 1→1, 2→2, 3→4, 4→5, 5→6}`, `vtg.mode` given by
`{0→N, 1→A, 2→D, 3→D, 4→D, 5→E}`, `gga.valid = (fix_quality > 0)`, and
`vtg.valid = (mode ≠ "N")`. -/
theorem gpsd_tpv_status_tables (kvs : List (String × Json)) (st : Gpsd.ReaderState)
    (s : ℤ) (d : Gpsd.GNSSData) (h0 : 0 ≤ s) (h5 : s ≤ 5)
    (hstatus : pyGet kvs ("status") = some (.num (s : ℚ)))
    (hok : Gpsd._process_tpv kvs st = .ok d) :
    d.gga.fix_quality = claimFixQuality s ∧
    d.vtg.map Gpsd.VTGData.mode = some (claimVtgMode s) ∧
    d.gga.valid = decide (0 < d.gga.fix_quality) ∧
    d.vtg.map Gpsd.VTGData.valid = some (decide (claimVtgMode s ≠ "N")) := by
  obtain ⟨hfix, hmode⟩ := statusLookup_agrees s h0 h5
  obtain ⟨utc, vtg, hv, hd⟩ := process_tpv_ok_shape kvs st d hok
  rw [hstatus] at hv
  obtain ⟨hvm, hvv⟩ := build_vtg_mode_valid kvs _ vtg hv
  simp only [Option.getD] at hvm
  subst hd
  rw [hstatus]
  simp only [Option.getD, Option.map]
  refine ⟨?_, ?_, ?_, ?_⟩
  · simpa [Gpsd._build_gga] using hfix
  · rw [hvm, hmode]
  · simp [Gpsd._build_gga]
  · rw [hvv, hvm, hmode]

/-- C6 witness: a TPV with status 3 after a SKY storing 12 satellites and
HDOP 0.5 yields fix-quality 4, mode D, and both validity flags true. -/
theorem gpsd_tpv_status_tables_witness :
    Gpsd._process_tpv tpvWitnessMsg ⟨some (Json.num 12), some (Json.num 0.5)⟩
      = .ok tpvWitnessData ∧
    (tpvWitnessData.gga.fix_quality = claimFixQuality 3 ∧
     tpvWitnessData.vtg.map Gpsd.VTGData.mode = some (claimVtgMode 3) ∧
     tpvWitnessData.gga.valid = decide (0 < tpvWitnessData.gga.fix_quality) ∧
     tpvWitnessData.vtg.map Gpsd.VTGData.valid
       = some (decide (claimVtgMode 3 ≠ "N"))) :=
  ⟨rfl, gpsd_tpv_status_tables tpvWitnessMsg ⟨some (Json.num 12), some (Json.num 0.5)⟩
    3 tpvWitnessData (by decide) (by decide) rfl rfl⟩

/-- C8: after `cancel()` (flag set, socket shut down), the very first
`readline` outcome the shut-down socket can produce — `b""`, an
`OSError`, or a `TimeoutError` for a wait already in progress — makes
the next (or in-progress) `read` fail with `EOFError`, within a single
recv attempt and hence within one timeout period. -/
theorem gnss_cancel_read_eof (o : Gpsd.RecvOutcome)
    (script : List Gpsd.RecvOutcome) (st : Gpsd.ReaderState)
    (h : Gpsd.postShutdownOutcome o) :
    Gpsd.readRun true (o :: script) st = .error .eofError := by
  rcases h with h | h | h <;> subst h <;> rfl

/-- C8 witness: a cancelled reader whose shut-down socket immediately
returns `b""` fails with `EOFError`. -/
theorem gnss_cancel_read_eof_witness :
    Gpsd.postShutdownOutcome .empty ∧
    Gpsd.readRun true [.empty] ⟨none, none⟩ = .error .eofError :=
  ⟨Or.inl rfl, gnss_cancel_read_eof .empty [] ⟨none, none⟩ (Or.inl rfl)⟩

/-- C9: for every NMEA VTG sentence accepted by `parse_vtg`,
`speed_meters_per_second` equals `speed_kilometers_per_hour` divided by
3.6 and is absent exactly when the km/h field is absent, and `valid`
holds exactly when the FAA mode indicator is present and not `"N"`. -/
theorem parse_vtg_speed_and_valid (sentence : Str) (v : Vtg.VTGData)
    (h : Vtg.parse_vtg sentence = .ok (some v)) :
    v.speed_meters_per_second
      = v.speed_kilometers_per_hour.map (fun kph => kph / (3.6 : ℚ)) ∧
    (v.speed_meters_per_second = none ↔ v.speed_kilometers_per_hour = none) ∧
    (v.valid = true ↔ v.mode ≠ none ∧ v.mode ≠ some ("N".toList)) := by
  unfold Vtg.parse_vtg at h
  obtain ⟨b, hb⟩ := validate_checksum_total (pyStrip sentence)
  simp only [hb, Bind.bind, Except.bind] at h
  cases b with
  | false => simp [Pure.pure, Except.pure] at h
  | true =>
    simp only [Bool.not_true, Bool.false_eq_true, if_false] at h
    have hbody := catchVI_ok_some _ v h
    unfold Vtg._parse_vtg_body at hbody
    cases hf : Vtg._extract_fields (pyStrip sentence) with
    | error e => rw [hf] at hbody; simp [Bind.bind, Except.bind] at hbody
    | ok fields? =>
      rw [hf] at hbody
      simp only [Bind.bind, Except.bind] at hbody
      cases fields? with
      | none => simp [Pure.pure, Except.pure] at hbody
      | some fields =>
        dsimp only at hbody
        cases hvm : Vtg._validate_message_type fields with
        | error e => rw [hvm] at hbody; simp at hbody
        | ok passed =>
          rw [hvm] at hbody
          simp only at hbody
          cases passed with
          | false => simp [Pure.pure, Except.pure] at hbody
          | true =>
            simp only [Bool.not_true, Bool.false_eq_true, if_false] at hbody
            cases hbd : Vtg._build_vtg_data fields with
            | error e => rw [hbd] at hbody; simp [Bind.bind, Except.bind] at hbody
            | ok d =>
              rw [hbd] at hbody
              simp only [Bind.bind, Except.bind, Pure.pure, Except.pure,
                Except.ok.injEq, Option.some.injEq] at hbody
              exact build_vtg_data_props fields v (hbody ▸ hbd)

/-- C9 witness: parsing `$GNVTG,,T,,M,,N,,K,A*3D` (empty speed fields,
FAA mode `A`) succeeds, and the claimed properties hold at the result. -/
theorem parse_vtg_speed_and_valid_witness :
    Vtg.parse_vtg vtgWitnessSentence = .ok (some vtgWitnessData) ∧
    (vtgWitnessData.speed_meters_per_second
        = vtgWitnessData.speed_kilometers_per_hour.map (fun kph => kph / (3.6 : ℚ)) ∧
     (vtgWitnessData.speed_meters_per_second = none ↔
        vtgWitnessData.speed_kilometers_per_hour = none) ∧
     (vtgWitnessData.valid = true ↔
        vtgWitnessData.mode ≠ none ∧ vtgWitnessData.mode ≠ some ("N".toList))) :=
  ⟨rfl, parse_vtg_speed_and_valid vtgWitnessSentence vtgWitnessData rfl⟩

/-- C10: `validate_checksum`, `parse_gga`, and `parse_vtg` return
normally on every input string — a boolean, or a parse result or `None`
— and never raise: no exception escapes any of them, including on
non-NMEA text, missing `$` or `*`, truncated frames, and
non-hexadecimal checksums. -/
theorem nmea_never_raises (s : Str) :
    (∃ b, validate_checksum s = .ok b) ∧
    (∃ r, Gga.parse_gga s = .ok r) ∧
    (∃ r, Vtg.parse_vtg s = .ok r) := by
  refine ⟨validate_checksum_total s, ?_, ?_⟩
  · unfold Gga.parse_gga
    obtain ⟨b, hb⟩ := validate_checksum_total (pyStrip s)
    simp only [hb, Bind.bind, Except.bind]
    cases b with
    | false => exact ⟨none, by simp [Pure.pure, Except.pure]⟩
    | true =>
      obtain ⟨y, hy⟩ := catchVI_total _ (onlyVI_parse_gga_body (pyStrip s))
      exact ⟨y, by simpa using hy⟩
  · unfold Vtg.parse_vtg
    obtain ⟨b, hb⟩ := validate_checksum_total (pyStrip s)
    simp only [hb, Bind.bind, Except.bind]
    cases b with
    | false => exact ⟨none, by simp [Pure.pure, Except.pure]⟩
    | true =>
      obtain ⟨y, hy⟩ := catchVI_total _ (onlyVI_parse_vtg_body (pyStrip s))
      exact ⟨y, by simpa using hy⟩
